import Mathlib

/-
Shallow embedding of mod_shimaore.c (FreeSWITCH unicast audio bunching module).
Byte buffers are modelled as functions Nat → Nat (index to byte value); stores
into uint8_t cells truncate mod 256.  Machine integers are Nat with explicit
mod 2^16 / 2^32 where the C types wrap.  Datagram transmission is modelled by
returning the byte list handed to switch_socket_send; the send result is a
Bool parameter that the state transition ignores, as in the source.
-/

/-- SWITCH_RECOMMENDED_BUFFER_SIZE, 8192 in FreeSWITCH (comment at line 52 of the source). -/
def SWITCH_RECOMMENDED_BUFFER_SIZE : Nat := 8192

/-- BUNCHER_MAXIMUM_PACKET_COUNT (lines 65-67). -/
def BUNCHER_MAXIMUM_PACKET_COUNT : Nat := 10

/-- shimaore_framing_t (lines 39-44). -/
inductive shimaore_framing_t where
  | SHIMAORE_FRAMING_PLAIN
  | SHIMAORE_FRAMING_RTP_L16
  deriving DecidableEq

/-- shimaore_context_t (lines 46-60).  The socket pointer is abstracted to a
presence flag; both fixed-capacity buffers are byte maps. -/
structure shimaore_context_t where
  socket : Bool
  buncher_position : Nat
  buncher_frame_count : Nat
  buncher_maximum : Nat
  buncher_buffer : Nat → Nat
  packet_buffer : Nat → Nat
  framing : shimaore_framing_t
  rtp_ssrc : Nat
  rtp_sequence_number : Nat
  rtp_timestamp : Nat

/-- Store of a value into a uint8_t cell of a byte buffer: truncates mod 256. -/
def store8 (buf : Nat → Nat) (i v : Nat) : Nat → Nat :=
  fun j => if j = i then v % 256 else buf j

/-- memcpy(dst+off, src, len) on byte maps. -/
def memcpy_at (dst : Nat → Nat) (off : Nat) (src : Nat → Nat) (len : Nat) : Nat → Nat :=
  fun j => if off ≤ j ∧ j < off + len then src (j - off) else dst j

/-- switch_swap_linear applied to the buffer at byte offset base, for n 16-bit
samples: each pair of bytes (base+2i, base+2i+1), i < n, is exchanged. -/
def switch_swap_linear (buf : Nat → Nat) (base n : Nat) : Nat → Nat :=
  fun j =>
    if base ≤ j ∧ j < base + 2 * n then
      if (j - base) % 2 = 0 then buf (j + 1) else buf (j - 1)
    else buf j

/-- Lines 85-101: the RTP header stores into packet_buffer[0..11] followed by
memcpy of the bunched payload at offset 12. -/
def rtp_packet_filled (ctx : shimaore_context_t) : Nat → Nat :=
  let pb := ctx.packet_buffer
  let pb := store8 pb 0 (2 <<< 6)
  let pb := store8 pb 1 96
  let pb := store8 pb 2 (ctx.rtp_sequence_number >>> 8)
  let pb := store8 pb 3 ctx.rtp_sequence_number
  let pb := store8 pb 4 (ctx.rtp_timestamp >>> 24)
  let pb := store8 pb 5 (ctx.rtp_timestamp >>> 16)
  let pb := store8 pb 6 (ctx.rtp_timestamp >>> 8)
  let pb := store8 pb 7 ctx.rtp_timestamp
  let pb := store8 pb 8 (ctx.rtp_ssrc >>> 24)
  let pb := store8 pb 9 (ctx.rtp_ssrc >>> 16)
  let pb := store8 pb 10 (ctx.rtp_ssrc >>> 8)
  let pb := store8 pb 11 ctx.rtp_ssrc
  memcpy_at pb 12 ctx.buncher_buffer ctx.buncher_position

/-- Lines 103-105: on a little-endian host the source calls
switch_swap_linear((int16_t *)context->packet_buffer+12, len/2).  The cast
binds before +, so the pointer advances by 12 two-byte samples: the swap
region starts at BYTE offset 24 and covers buncher_position/2 samples. -/
def rtp_packet_after_swap (ctx : shimaore_context_t) (little_endian : Bool) : Nat → Nat :=
  if little_endian then
    switch_swap_linear (rtp_packet_filled ctx) (2 * 12) (ctx.buncher_position / 2)
  else
    rtp_packet_filled ctx

/-- The byte list handed to switch_socket_send by shimaore_send (lines 79 and
107): buncher_position bytes of the bunch buffer in Plain framing, or
buncher_position + 12 bytes of the assembled packet buffer in RTP framing. -/
def shimaore_datagram (ctx : shimaore_context_t) (little_endian : Bool) : List Nat :=
  match ctx.framing with
  | .SHIMAORE_FRAMING_PLAIN =>
      (List.range ctx.buncher_position).map ctx.buncher_buffer
  | .SHIMAORE_FRAMING_RTP_L16 =>
      (List.range (ctx.buncher_position + 12)).map (rtp_packet_after_swap ctx little_endian)

/-- shimaore_send (lines 72-115): state transition.  send_ok models the result
of switch_socket_send, which the source explicitly ignores.  In RTP framing
rtp_sequence_number++ wraps as uint16_t and rtp_timestamp += buncher_position
wraps as uint32_t (lines 109-110); both modes then reset buncher_position and
buncher_frame_count (lines 113-114). -/
def shimaore_send (ctx : shimaore_context_t) (little_endian send_ok : Bool) : shimaore_context_t :=
  match ctx.framing with
  | .SHIMAORE_FRAMING_PLAIN =>
      { ctx with buncher_position := 0, buncher_frame_count := 0 }
  | .SHIMAORE_FRAMING_RTP_L16 =>
      { ctx with
        packet_buffer := rtp_packet_after_swap ctx little_endian,
        rtp_sequence_number := (ctx.rtp_sequence_number + 1) % 2 ^ 16,
        rtp_timestamp := (ctx.rtp_timestamp + ctx.buncher_position) % 2 ^ 32,
        buncher_position := 0,
        buncher_frame_count := 0 }

/-- Writing frame bytes into the bunch buffer starting at base (the media bug
read targets buncher_buffer + buncher_position, line 153). -/
def write_bytes (buf : Nat → Nat) (base : Nat) (data : List Nat) : Nat → Nat :=
  fun j => if base ≤ j ∧ j < base + data.length then data.getD (j - base) 0 else buf j

/-- SWITCH_ABC_TYPE_READ branch of shimaore_unicast_bug_callback (lines
141-173).  read_result = none models a failed switch_core_media_bug_read;
the returned Option carries the datagram handed to the socket when the
append triggered a flush. -/
def shimaore_on_read (ctx : shimaore_context_t) (read_result : Option (List Nat))
    (little_endian send_ok : Bool) : Option (List Nat) × shimaore_context_t :=
  if ctx.socket = false then
    (none, ctx)
  else
    match read_result with
    | none => (none, ctx)
    | some frame =>
      let ctx1 : shimaore_context_t :=
        { ctx with
          buncher_buffer := write_bytes ctx.buncher_buffer ctx.buncher_position frame,
          buncher_position := ctx.buncher_position + frame.length,
          buncher_frame_count := ctx.buncher_frame_count + 1 }
      if SWITCH_RECOMMENDED_BUFFER_SIZE ≤ ctx1.buncher_position ∨
          ctx1.buncher_maximum ≤ ctx1.buncher_frame_count then
        (some (shimaore_datagram ctx1 little_endian), shimaore_send ctx1 little_endian send_ok)
      else
        (none, ctx1)

/-- SWITCH_ABC_TYPE_CLOSE branch of shimaore_unicast_bug_callback (lines
131-139): one forced flush when bytes are pending, otherwise nothing. -/
def shimaore_on_close (ctx : shimaore_context_t) (little_endian send_ok : Bool) :
    Option (List Nat) × shimaore_context_t :=
  if 0 < ctx.buncher_position then
    (some (shimaore_datagram ctx little_endian), shimaore_send ctx little_endian send_ok)
  else
    (none, ctx)

/- ===== Control surface: shimaore_unicast_api_function (lines 185-408) ===== -/

/-- Leading decimal digits, accumulator style. -/
def atoi_digits : List Char → Nat → Nat
  | [], acc => acc
  | c :: cs, acc =>
      if c.isDigit then atoi_digits cs (acc * 10 + (c.toNat - 48)) else acc

/-- C atoi on the option values: optional sign then leading digits, 0 when no
digits (leading whitespace is not modelled; the option values the module
receives carry none). -/
def atoi (s : List Char) : Int :=
  match s with
  | '-' :: cs => -(atoi_digits cs 0 : Int)
  | '+' :: cs => (atoi_digits cs 0 : Int)
  | cs => (atoi_digits cs 0 : Int)

/-- Conversion of an int value to a uint32_t cell, as in the assignments to
context->buncher_maximum and context->rtp_ssrc. -/
def to_uint32 (v : Int) : Nat :=
  (v % (2 ^ 32 : Int)).toNat

/-- strchr(arg, = ) followed by the key/value split of lines 280-288: none
when the argument has no equals sign; otherwise the text before the first
equals sign and the text after it. -/
def split_on_eq : List Char → Option (List Char × List Char)
  | [] => none
  | c :: rest =>
      if c = '=' then some ([], rest)
      else
        match split_on_eq rest with
        | none => none
        | some (k, v) => some (c :: k, v)

/-- The locals of lines 272-276 together with the context fields the option
loop writes (lines 264-270, 278-315). -/
structure start_config where
  remote_ip : List Char
  local_ip : List Char
  local_port : Int
  remote_port : Int
  buncher_maximum : Nat
  framing : shimaore_framing_t
  rtp_ssrc : Nat
  deriving DecidableEq

def localhost : List Char := "127.0.0.1".data

/-- Initial values: locals of lines 272-276 and context init of lines 264-270. -/
def init_config : start_config :=
  { remote_ip := localhost
    local_ip := localhost
    local_port := 5876
    remote_port := 0
    buncher_maximum := BUNCHER_MAXIMUM_PACKET_COUNT
    framing := .SHIMAORE_FRAMING_PLAIN
    rtp_ssrc := 0 }

def key_remote_ip : List Char := "remote_ip".data
def key_remote_port : List Char := "remote_port".data
def key_local_ip : List Char := "local_ip".data
def key_local_port : List Char := "local_port".data
def key_frames_per_packet : List Char := "frames_per_packet".data
def key_rtp_ssrc : List Char := "rtp_ssrc".data

/-- One iteration of the option loop, key dispatch of lines 289-314.  Note
line 302 of the source: the local_port key assigns the remote_port local,
exactly as transcribed here; the local_port local is never reassigned. -/
def process_arg (cfg : start_config) (key value : List Char) : Option start_config :=
  if key = key_remote_ip then some { cfg with remote_ip := value }
  else if key = key_remote_port then some { cfg with remote_port := atoi value }
  else if key = key_local_ip then some { cfg with local_ip := value }
  else if key = key_local_port then some { cfg with remote_port := atoi value }
  else if key = key_frames_per_packet then
    some { cfg with buncher_maximum := to_uint32 (atoi value) }
  else if key = key_rtp_ssrc then
    some { cfg with framing := .SHIMAORE_FRAMING_RTP_L16, rtp_ssrc := to_uint32 (atoi value) }
  else none

/-- The option loop of lines 278-315: none models goto usage (argument
without an equals sign, empty value, or unknown key). -/
def process_args (cfg : start_config) : List (List Char) → Option start_config
  | [] => some cfg
  | a :: rest =>
      match split_on_eq a with
      | none => none
      | some (key, value) =>
          if value = [] then none
          else
            match process_arg cfg key value with
            | none => none
            | some cfg2 => process_args cfg2 rest

/-- A successful start: the endpoints of the socket bind (line 364, local
address) and connect (line 369, remote address), and the fresh context the
media bug callback receives. -/
structure start_success where
  bind_ip : List Char
  bind_port : Int
  connect_ip : List Char
  connect_port : Int
  ctx : shimaore_context_t

/-- The start path after the duplicate-activation and argc checks: option
loop (lines 278-315), range checks of lines 317-325 (buncher_maximum is
uint32_t, so <= 0 there means = 0), then socket setup using local_ip and
local_port for bind and remote_ip and remote_port for connect (lines
327-376).  none models goto usage; socket setup itself is external and
assumed to succeed.  seq0 and ts0 model the two rand() calls of lines
269-270, truncated by the uint16_t / uint32_t fields. -/
def shimaore_start (args : List (List Char)) (seq0 ts0 : Nat) : Option start_success :=
  match process_args init_config args with
  | none => none
  | some cfg =>
      if cfg.remote_port ≤ 0 then none
      else if cfg.local_port ≤ 0 then none
      else if cfg.buncher_maximum = 0 ∨ BUNCHER_MAXIMUM_PACKET_COUNT < cfg.buncher_maximum then none
      else
        some
          { bind_ip := cfg.local_ip
            bind_port := cfg.local_port
            connect_ip := cfg.remote_ip
            connect_port := cfg.remote_port
            ctx :=
              { socket := true
                buncher_position := 0
                buncher_frame_count := 0
                buncher_maximum := cfg.buncher_maximum
                buncher_buffer := fun _ => 0
                packet_buffer := fun _ => 0
                framing := cfg.framing
                rtp_ssrc := cfg.rtp_ssrc
                rtp_sequence_number := seq0 % 2 ^ 16
                rtp_timestamp := ts0 % 2 ^ 32 } }

/-- The replies the api function writes to its stream on the paths modelled
here: +OK Success, +OK Not activated, -ERR Unicast already activated, and
-USAGE. -/
inductive api_reply where
  | ok_success
  | ok_not_activated
  | err_already_activated
  | usage_error
  deriving DecidableEq

/-- Case-insensitive string equality, modelling strcasecmp(a, b) == 0. -/
def strcaseeq (a b : List Char) : Bool :=
  a.map Char.toLower == b.map Char.toLower

def stop_str : List Char := "stop".data
def start_str : List Char := "start".data

/-- Dispatch of shimaore_unicast_api_function once the session and channel
are located (lines 230-395): bug_present models whether the channel private
SHIMAORE_UNICAST_BUG is set.  Returns the stream reply and the new
bug-present state.  Branch order follows the source: stop (line 230), the
action check (line 244), duplicate activation (line 248), argc < 3 (line
258), then the start path. -/
def shimaore_unicast_api (bug_present : Bool) (action : List Char)
    (args : List (List Char)) (seq0 ts0 : Nat) : api_reply × Bool :=
  if action ≠ [] ∧ strcaseeq action stop_str = true then
    if bug_present then (.ok_success, false) else (.ok_not_activated, bug_present)
  else if action = [] ∨ ¬ strcaseeq action start_str = true then
    (.usage_error, bug_present)
  else if bug_present then
    (.err_already_activated, bug_present)
  else if args = [] then
    (.usage_error, bug_present)
  else
    match shimaore_start args seq0 ts0 with
    | none => (.usage_error, bug_present)
    | some _ => (.ok_success, true)

/- ===== Sample inputs used by the witnesses and counterexamples ===== -/

/-- A Plain-framing context with an empty bunch, three-frame threshold. -/
def plainCtx : shimaore_context_t :=
  { socket := true
    buncher_position := 0
    buncher_frame_count := 0
    buncher_maximum := 3
    buncher_buffer := fun _ => 0
    packet_buffer := fun _ => 0
    framing := .SHIMAORE_FRAMING_PLAIN
    rtp_ssrc := 0
    rtp_sequence_number := 10
    rtp_timestamp := 0 }

/-- A Plain-framing context holding two pending bytes. -/
def closeCtx : shimaore_context_t :=
  { socket := true
    buncher_position := 2
    buncher_frame_count := 1
    buncher_maximum := 10
    buncher_buffer := fun j => if j = 0 then 1 else if j = 1 then 2 else 0
    packet_buffer := fun _ => 0
    framing := .SHIMAORE_FRAMING_PLAIN
    rtp_ssrc := 0
    rtp_sequence_number := 0
    rtp_timestamp := 0 }

/-- An RTP-framing context with a 160-byte bunch pending. -/
def rtpCtx : shimaore_context_t :=
  { socket := true
    buncher_position := 160
    buncher_frame_count := 1
    buncher_maximum := 10
    buncher_buffer := fun _ => 0
    packet_buffer := fun _ => 0
    framing := .SHIMAORE_FRAMING_RTP_L16
    rtp_ssrc := 1234
    rtp_sequence_number := 10
    rtp_timestamp := 0 }

/-- An RTP-framing context with all RTP counters at their type maxima. -/
def headerCtx : shimaore_context_t :=
  { socket := true
    buncher_position := 0
    buncher_frame_count := 0
    buncher_maximum := 10
    buncher_buffer := fun _ => 0
    packet_buffer := fun _ => 0
    framing := .SHIMAORE_FRAMING_RTP_L16
    rtp_ssrc := 4294967295
    rtp_sequence_number := 65535
    rtp_timestamp := 4294967295 }

/-- An RTP-framing context whose two-byte bunch holds the sample bytes 1, 2. -/
def c1Ctx : shimaore_context_t :=
  { socket := true
    buncher_position := 2
    buncher_frame_count := 1
    buncher_maximum := 10
    buncher_buffer := fun j => if j = 0 then 1 else if j = 1 then 2 else 0
    packet_buffer := fun _ => 0
    framing := .SHIMAORE_FRAMING_RTP_L16
    rtp_ssrc := 0
    rtp_sequence_number := 0
    rtp_timestamp := 0 }

/-- The spec-side byte-swap: the payload read as 16-bit samples with the two
bytes of every sample exchanged (network order for little-endian input). -/
def l16_network_order : List Nat → List Nat
  | a :: b :: rest => b :: a :: l16_network_order rest
  | rest => rest

def c2_args : List (List Char) := ["remote_port=4000".data, "local_port=7000".data]

def c9_args : List (List Char) := ["remote_port=4000".data, "frames_per_packet=7".data]

/-- The configuration process_args produces on c9_args. -/
def c9_cfg : start_config :=
  { remote_ip := localhost
    local_ip := localhost
    local_port := 5876
    remote_port := 4000
    buncher_maximum := 7
    framing := .SHIMAORE_FRAMING_PLAIN
    rtp_ssrc := 0 }

/- ===== Helper lemmas ===== -/

/-- Both framings of shimaore_send end with the reset of lines 113-114. -/
theorem send_resets (ctx : shimaore_context_t) (le s : Bool) :
    (shimaore_send ctx le s).buncher_position = 0 ∧
    (shimaore_send ctx le s).buncher_frame_count = 0 := by
  obtain ⟨sock, pos, fc, mx, bb, pb, fr, ssrc, sq, ts⟩ := ctx
  cases fr <;> simp [shimaore_send]

theorem getD_range_map (f : Nat → Nat) (n i : Nat) (h : i < n) :
    ((List.range n).map f).getD i 0 = f i := by
  have h2 : i < ((List.range n).map f).length := by simpa using h
  rw [List.getD_eq_getElem _ _ h2]
  simp

/-- The little-endian swap region starts at byte 24, so header bytes are
never touched by it. -/
theorem rtp_header_byte (ctx : shimaore_context_t) (little_endian : Bool) (i : Nat)
    (hi : i < 12) :
    rtp_packet_after_swap ctx little_endian i = rtp_packet_filled ctx i := by
  unfold rtp_packet_after_swap
  cases little_endian
  · rfl
  · simp only [if_true, switch_swap_linear]
    rw [if_neg (by omega)]

/-- In RTP framing the first twelve bytes of the sent datagram are the header
bytes stored by lines 85-99. -/
theorem datagram_header_byte (ctx : shimaore_context_t) (little_endian : Bool)
    (hf : ctx.framing = .SHIMAORE_FRAMING_RTP_L16) (i : Nat) (hi : i < 12) :
    (shimaore_datagram ctx little_endian).getD i 0 = rtp_packet_filled ctx i := by
  unfold shimaore_datagram
  split
  · next hpl => rw [hpl] at hf; exact absurd hf (by decide)
  · rw [getD_range_map _ _ _ (by omega)]
    exact rtp_header_byte ctx little_endian i hi

/-- The start-action path of the dispatch reduces to the result of
shimaore_start. -/
theorem api_start_path (args : List (List Char)) (seq0 ts0 : Nat) (hargs : args ≠ []) :
    shimaore_unicast_api false start_str args seq0 ts0
      = (match shimaore_start args seq0 ts0 with
          | none => (api_reply.usage_error, false)
          | some _ => (api_reply.ok_success, true)) := by
  unfold shimaore_unicast_api
  rw [if_neg (by decide), if_neg (by decide), if_neg (by decide), if_neg hargs]

/- ===== Claim theorems ===== -/

/-- Claim C4: in RTP framing every flush advances rtp_sequence_number by
exactly 1 modulo 2^16 and rtp_timestamp by exactly the flushed payload length
modulo 2^32, and the advancement is identical whether the send succeeded or
failed. -/
theorem c4_rtp_counters_advance (ctx : shimaore_context_t) (little_endian send_ok : Bool)
    (hf : ctx.framing = .SHIMAORE_FRAMING_RTP_L16) :
    (shimaore_send ctx little_endian send_ok).rtp_sequence_number
        = (ctx.rtp_sequence_number + 1) % 2 ^ 16 ∧
    (shimaore_send ctx little_endian send_ok).rtp_timestamp
        = (ctx.rtp_timestamp + ctx.buncher_position) % 2 ^ 32 ∧
    shimaore_send ctx little_endian true = shimaore_send ctx little_endian false := by
  obtain ⟨sock, pos, fc, mx, bb, pb, fr, ssrc, sq, ts⟩ := ctx
  cases fr
  · exact absurd hf (by simp)
  · simp [shimaore_send]

/-- Witness for C4 at the concrete context rtpCtx. -/
theorem c4_rtp_counters_advance_witness :
    (shimaore_send rtpCtx true true).rtp_sequence_number
        = (rtpCtx.rtp_sequence_number + 1) % 2 ^ 16 ∧
    (shimaore_send rtpCtx true true).rtp_timestamp
        = (rtpCtx.rtp_timestamp + rtpCtx.buncher_position) % 2 ^ 32 ∧
    shimaore_send rtpCtx true true = shimaore_send rtpCtx true false :=
  c4_rtp_counters_advance rtpCtx true true rfl

/-- Claim C5: immediately after any flush, in both framings, buncher_position
and buncher_frame_count are 0, independently of the send outcome. -/
theorem c5_flush_resets_counters (ctx : shimaore_context_t) (little_endian send_ok : Bool) :
    (shimaore_send ctx little_endian send_ok).buncher_position = 0 ∧
    (shimaore_send ctx little_endian send_ok).buncher_frame_count = 0 :=
  send_resets ctx little_endian send_ok

/-- Claim C6: after an accepted frame is appended, a flush happens exactly
when the new position reaches SWITCH_RECOMMENDED_BUFFER_SIZE or the new frame
count reaches buncher_maximum; otherwise position and frame count are the
cumulative sums. -/
theorem c6_flush_threshold (ctx : shimaore_context_t) (frame : List Nat)
    (little_endian send_ok : Bool) (hs : ctx.socket = true) :
    ((shimaore_on_read ctx (some frame) little_endian send_ok).1 ≠ none ↔
      (SWITCH_RECOMMENDED_BUFFER_SIZE ≤ ctx.buncher_position + frame.length ∨
       ctx.buncher_maximum ≤ ctx.buncher_frame_count + 1)) ∧
    (¬ (SWITCH_RECOMMENDED_BUFFER_SIZE ≤ ctx.buncher_position + frame.length ∨
        ctx.buncher_maximum ≤ ctx.buncher_frame_count + 1) →
      (shimaore_on_read ctx (some frame) little_endian send_ok).2.buncher_position
          = ctx.buncher_position + frame.length ∧
      (shimaore_on_read ctx (some frame) little_endian send_ok).2.buncher_frame_count
          = ctx.buncher_frame_count + 1) ∧
    ((SWITCH_RECOMMENDED_BUFFER_SIZE ≤ ctx.buncher_position + frame.length ∨
      ctx.buncher_maximum ≤ ctx.buncher_frame_count + 1) →
      (shimaore_on_read ctx (some frame) little_endian send_ok).2.buncher_position = 0 ∧
      (shimaore_on_read ctx (some frame) little_endian send_ok).2.buncher_frame_count = 0) := by
  by_cases hcond : SWITCH_RECOMMENDED_BUFFER_SIZE ≤ ctx.buncher_position + frame.length ∨
      ctx.buncher_maximum ≤ ctx.buncher_frame_count + 1
  · simp [shimaore_on_read, hs, hcond]
    exact send_resets _ little_endian send_ok
  · simp [shimaore_on_read, hs, hcond]

/-- Witness for C6 at the concrete context plainCtx with a two-byte frame. -/
theorem c6_flush_threshold_witness :
    ((shimaore_on_read plainCtx (some [1, 2]) true true).1 ≠ none ↔
      (SWITCH_RECOMMENDED_BUFFER_SIZE ≤ plainCtx.buncher_position + [1, 2].length ∨
       plainCtx.buncher_maximum ≤ plainCtx.buncher_frame_count + 1)) ∧
    (¬ (SWITCH_RECOMMENDED_BUFFER_SIZE ≤ plainCtx.buncher_position + [1, 2].length ∨
        plainCtx.buncher_maximum ≤ plainCtx.buncher_frame_count + 1) →
      (shimaore_on_read plainCtx (some [1, 2]) true true).2.buncher_position
          = plainCtx.buncher_position + [1, 2].length ∧
      (shimaore_on_read plainCtx (some [1, 2]) true true).2.buncher_frame_count
          = plainCtx.buncher_frame_count + 1) ∧
    ((SWITCH_RECOMMENDED_BUFFER_SIZE ≤ plainCtx.buncher_position + [1, 2].length ∨
      plainCtx.buncher_maximum ≤ plainCtx.buncher_frame_count + 1) →
      (shimaore_on_read plainCtx (some [1, 2]) true true).2.buncher_position = 0 ∧
      (shimaore_on_read plainCtx (some [1, 2]) true true).2.buncher_frame_count = 0) :=
  c6_flush_threshold plainCtx [1, 2] true true rfl

/-- Claim C7: the close hook with pending bytes performs exactly one flush of
the accumulated bunch; a second close (and any close with an empty bunch) is
a no-op. -/
theorem c7_close_idempotent (ctx : shimaore_context_t) (little_endian send_ok : Bool) :
    (0 < ctx.buncher_position →
      (shimaore_on_close ctx little_endian send_ok).1
          = some (shimaore_datagram ctx little_endian) ∧
      shimaore_on_close (shimaore_on_close ctx little_endian send_ok).2 little_endian send_ok
          = (none, (shimaore_on_close ctx little_endian send_ok).2)) ∧
    (ctx.buncher_position = 0 → shimaore_on_close ctx little_endian send_ok = (none, ctx)) := by
  constructor
  · intro h
    have hres := send_resets ctx little_endian send_ok
    constructor
    · simp [shimaore_on_close, h]
    · simp [shimaore_on_close, h, hres.1]
  · intro h
    simp [shimaore_on_close, h]

/-- Witness for C7 at the concrete context closeCtx. -/
theorem c7_close_idempotent_witness :
    (shimaore_on_close closeCtx true true).1 = some (shimaore_datagram closeCtx true) ∧
    shimaore_on_close (shimaore_on_close closeCtx true true).2 true true
        = (none, (shimaore_on_close closeCtx true true).2) :=
  (c7_close_idempotent closeCtx true true).1 (by decide)

/-- Claim C8: a start command while the media bug is already attached is
rejected with the already-activated error and leaves the bug state untouched;
a stop command with no bug attached succeeds as a no-op acknowledgment. -/
theorem c8_duplicate_start_stop_noop (args : List (List Char)) (seq0 ts0 : Nat) :
    shimaore_unicast_api true start_str args seq0 ts0 = (.err_already_activated, true) ∧
    shimaore_unicast_api false stop_str args seq0 ts0 = (.ok_not_activated, false) :=
  ⟨rfl, rfl⟩

/-- Claim C10: a flush never modifies the bunch buffer or the configuration
fields; in Plain framing it also leaves the packet buffer and the RTP
counters untouched and sends the bunch buffer bytes as-is. -/
theorem c10_flush_preserves_bunch_buffer (ctx : shimaore_context_t)
    (little_endian send_ok : Bool) :
    (shimaore_send ctx little_endian send_ok).buncher_buffer = ctx.buncher_buffer ∧
    (shimaore_send ctx little_endian send_ok).buncher_maximum = ctx.buncher_maximum ∧
    (shimaore_send ctx little_endian send_ok).framing = ctx.framing ∧
    (shimaore_send ctx little_endian send_ok).rtp_ssrc = ctx.rtp_ssrc ∧
    (shimaore_send ctx little_endian send_ok).socket = ctx.socket ∧
    (ctx.framing = .SHIMAORE_FRAMING_PLAIN →
      (shimaore_send ctx little_endian send_ok).packet_buffer = ctx.packet_buffer ∧
      (shimaore_send ctx little_endian send_ok).rtp_sequence_number
          = ctx.rtp_sequence_number ∧
      (shimaore_send ctx little_endian send_ok).rtp_timestamp = ctx.rtp_timestamp ∧
      shimaore_datagram ctx little_endian
          = (List.range ctx.buncher_position).map ctx.buncher_buffer) := by
  obtain ⟨sock, pos, fc, mx, bb, pb, fr, ssrc, sq, ts⟩ := ctx
  cases fr <;> simp [shimaore_send, shimaore_datagram]

/-- Witness for C10 at the concrete context closeCtx (Plain framing). -/
theorem c10_flush_preserves_bunch_buffer_witness :
    (shimaore_send closeCtx true true).buncher_buffer = closeCtx.buncher_buffer ∧
    ((shimaore_send closeCtx true true).packet_buffer = closeCtx.packet_buffer ∧
      (shimaore_send closeCtx true true).rtp_sequence_number
          = closeCtx.rtp_sequence_number ∧
      (shimaore_send closeCtx true true).rtp_timestamp = closeCtx.rtp_timestamp ∧
      shimaore_datagram closeCtx true
          = (List.range closeCtx.buncher_position).map closeCtx.buncher_buffer) :=
  ⟨(c10_flush_preserves_bunch_buffer closeCtx true true).1,
   (c10_flush_preserves_bunch_buffer closeCtx true true).2.2.2.2.2 rfl⟩

/-- Claim C3: in RTP framing, for any counter values within their C types,
the sent datagram starts with 0x80, 96, then the big-endian bytes of
rtp_sequence_number, rtp_timestamp and rtp_ssrc. -/
theorem c3_rtp_header_encoding (ctx : shimaore_context_t) (little_endian : Bool)
    (hf : ctx.framing = .SHIMAORE_FRAMING_RTP_L16)
    (hseq : ctx.rtp_sequence_number < 2 ^ 16)
    (hts : ctx.rtp_timestamp < 2 ^ 32)
    (hssrc : ctx.rtp_ssrc < 2 ^ 32) :
    (shimaore_datagram ctx little_endian).getD 0 0 = 128 ∧
    (shimaore_datagram ctx little_endian).getD 1 0 = 96 ∧
    (shimaore_datagram ctx little_endian).getD 2 0 = ctx.rtp_sequence_number / 2 ^ 8 ∧
    (shimaore_datagram ctx little_endian).getD 3 0 = ctx.rtp_sequence_number % 2 ^ 8 ∧
    (shimaore_datagram ctx little_endian).getD 4 0 = ctx.rtp_timestamp / 2 ^ 24 ∧
    (shimaore_datagram ctx little_endian).getD 5 0 = ctx.rtp_timestamp / 2 ^ 16 % 2 ^ 8 ∧
    (shimaore_datagram ctx little_endian).getD 6 0 = ctx.rtp_timestamp / 2 ^ 8 % 2 ^ 8 ∧
    (shimaore_datagram ctx little_endian).getD 7 0 = ctx.rtp_timestamp % 2 ^ 8 ∧
    (shimaore_datagram ctx little_endian).getD 8 0 = ctx.rtp_ssrc / 2 ^ 24 ∧
    (shimaore_datagram ctx little_endian).getD 9 0 = ctx.rtp_ssrc / 2 ^ 16 % 2 ^ 8 ∧
    (shimaore_datagram ctx little_endian).getD 10 0 = ctx.rtp_ssrc / 2 ^ 8 % 2 ^ 8 ∧
    (shimaore_datagram ctx little_endian).getD 11 0 = ctx.rtp_ssrc % 2 ^ 8 := by
  rw [datagram_header_byte ctx little_endian hf 0 (by norm_num),
      datagram_header_byte ctx little_endian hf 1 (by norm_num),
      datagram_header_byte ctx little_endian hf 2 (by norm_num),
      datagram_header_byte ctx little_endian hf 3 (by norm_num),
      datagram_header_byte ctx little_endian hf 4 (by norm_num),
      datagram_header_byte ctx little_endian hf 5 (by norm_num),
      datagram_header_byte ctx little_endian hf 6 (by norm_num),
      datagram_header_byte ctx little_endian hf 7 (by norm_num),
      datagram_header_byte ctx little_endian hf 8 (by norm_num),
      datagram_header_byte ctx little_endian hf 9 (by norm_num),
      datagram_header_byte ctx little_endian hf 10 (by norm_num),
      datagram_header_byte ctx little_endian hf 11 (by norm_num)]
  refine ⟨?_, ?_, ?_, ?_, ?_, ?_, ?_, ?_, ?_, ?_, ?_, ?_⟩ <;>
    simp only [rtp_packet_filled, memcpy_at, store8, Nat.shiftRight_eq_div_pow] <;>
    norm_num <;> omega

/-- Witness for C3 at headerCtx, whose counters sit at the type maxima. -/
theorem c3_rtp_header_encoding_witness :
    (shimaore_datagram headerCtx true).getD 0 0 = 128 ∧
    (shimaore_datagram headerCtx true).getD 1 0 = 96 ∧
    (shimaore_datagram headerCtx true).getD 2 0 = headerCtx.rtp_sequence_number / 2 ^ 8 ∧
    (shimaore_datagram headerCtx true).getD 3 0 = headerCtx.rtp_sequence_number % 2 ^ 8 ∧
    (shimaore_datagram headerCtx true).getD 4 0 = headerCtx.rtp_timestamp / 2 ^ 24 ∧
    (shimaore_datagram headerCtx true).getD 5 0 = headerCtx.rtp_timestamp / 2 ^ 16 % 2 ^ 8 ∧
    (shimaore_datagram headerCtx true).getD 6 0 = headerCtx.rtp_timestamp / 2 ^ 8 % 2 ^ 8 ∧
    (shimaore_datagram headerCtx true).getD 7 0 = headerCtx.rtp_timestamp % 2 ^ 8 ∧
    (shimaore_datagram headerCtx true).getD 8 0 = headerCtx.rtp_ssrc / 2 ^ 24 ∧
    (shimaore_datagram headerCtx true).getD 9 0 = headerCtx.rtp_ssrc / 2 ^ 16 % 2 ^ 8 ∧
    (shimaore_datagram headerCtx true).getD 10 0 = headerCtx.rtp_ssrc / 2 ^ 8 % 2 ^ 8 ∧
    (shimaore_datagram headerCtx true).getD 11 0 = headerCtx.rtp_ssrc % 2 ^ 8 :=
  c3_rtp_header_encoding headerCtx true rfl (by decide) (by decide) (by decide)

/-- Claim C9: once the option loop has produced a configuration, a
buncher_maximum outside 1..10 makes the start command fail with the usage
error and leaves the bug unattached, while a value inside the range is
accepted and becomes the buncher_maximum of the created context. -/
theorem c9_frames_per_packet_range (args : List (List Char)) (cfg : start_config)
    (seq0 ts0 : Nat) (h : process_args init_config args = some cfg) (hargs : args ≠ [])
    (hrp : 0 < cfg.remote_port) (hlp : 0 < cfg.local_port) :
    ((cfg.buncher_maximum = 0 ∨ BUNCHER_MAXIMUM_PACKET_COUNT < cfg.buncher_maximum) →
      shimaore_start args seq0 ts0 = none ∧
      shimaore_unicast_api false start_str args seq0 ts0 = (.usage_error, false)) ∧
    (1 ≤ cfg.buncher_maximum → cfg.buncher_maximum ≤ BUNCHER_MAXIMUM_PACKET_COUNT →
      (∃ s, shimaore_start args seq0 ts0 = some s ∧
        s.ctx.buncher_maximum = cfg.buncher_maximum) ∧
      shimaore_unicast_api false start_str args seq0 ts0 = (.ok_success, true)) := by
  have hbase : shimaore_start args seq0 ts0
      = if cfg.buncher_maximum = 0 ∨ BUNCHER_MAXIMUM_PACKET_COUNT < cfg.buncher_maximum
        then none
        else
          some
            { bind_ip := cfg.local_ip
              bind_port := cfg.local_port
              connect_ip := cfg.remote_ip
              connect_port := cfg.remote_port
              ctx :=
                { socket := true
                  buncher_position := 0
                  buncher_frame_count := 0
                  buncher_maximum := cfg.buncher_maximum
                  buncher_buffer := fun _ => 0
                  packet_buffer := fun _ => 0
                  framing := cfg.framing
                  rtp_ssrc := cfg.rtp_ssrc
                  rtp_sequence_number := seq0 % 2 ^ 16
                  rtp_timestamp := ts0 % 2 ^ 32 } } := by
    simp only [shimaore_start, h]
    rw [if_neg (by omega), if_neg (by omega)]
  constructor
  · intro hout
    rw [hbase, if_pos hout]
    refine ⟨rfl, ?_⟩
    rw [api_start_path args seq0 ts0 hargs, hbase, if_pos hout]
  · intro hlo hhi
    have hneg : ¬ (cfg.buncher_maximum = 0 ∨ BUNCHER_MAXIMUM_PACKET_COUNT < cfg.buncher_maximum) := by
      unfold BUNCHER_MAXIMUM_PACKET_COUNT at hhi ⊢
      omega
    rw [hbase, if_neg hneg]
    refine ⟨⟨_, rfl, rfl⟩, ?_⟩
    rw [api_start_path args seq0 ts0 hargs, hbase, if_neg hneg]

/-- Witness for C9: remote_port=4000 frames_per_packet=7 is accepted with
buncher_maximum 7 and attaches the bug. -/
theorem c9_frames_per_packet_range_witness :
    (∃ s, shimaore_start c9_args 0 0 = some s ∧
      s.ctx.buncher_maximum = c9_cfg.buncher_maximum) ∧
    shimaore_unicast_api false start_str c9_args 0 0 = (.ok_success, true) :=
  (c9_frames_per_packet_range c9_args c9_cfg 0 0 (by decide) (by decide) (by decide)
    (by decide)).2 (by decide) (by decide)

/-- Claim C1 fails on the source: with a little-endian host the swap call of
line 104 advances the pointer by 12 two-byte samples, so the payload bytes at
datagram offset 12 leave unswapped; here the two accumulated sample bytes 1, 2
are sent as 1, 2 where the claim requires the network-order 2, 1. -/
theorem c1_swap_applied_at_wrong_offset :
    (shimaore_datagram c1Ctx true).drop 12 = [1, 2] ∧
    (shimaore_datagram c1Ctx true).drop 12 ≠ l16_network_order [1, 2] := by
  decide

/-- Claim C2 fails on the source: line 302 assigns the local_port option value
to the remote_port local, so starting with remote_port=4000 local_port=7000
binds locally to the default 5876 and connects remotely to 7000, where the
claim requires a local bind to 7000 with the remote port kept at 4000. -/
theorem c2_local_port_assigns_remote_port :
    (shimaore_start c2_args 0 0).map (fun s => (s.bind_port, s.connect_port))
        = some (5876, 7000) ∧
    (shimaore_start c2_args 0 0).map (fun s => (s.bind_port, s.connect_port))
        ≠ some (7000, 4000) := by
  decide
